import Mathlib

/-!
Verification of the lai-code local control plane and command-execution engine.

The definitions below are a shallow embedding of the Rust sources:

* `src-tauri/src/ipc.rs` — the loopback IPC server: envelope dispatch
  (`handle_message`), the per-connection framing loop (`handle_client`), and
  the startup parsing of the dev-mode environment flag.
* `src-tauri/src/commands/run.rs` — the in-app process runner (`run_code`)
  with its polling timeout loop and the rotating audit log (`append_audit`).
* `cli/src/main.rs` — the CLI-side process capture (`execute_command`) and the
  heuristic failure classifier (`analyze_error_output`).

Conventions: machine integers are `Int`/`Nat` (no overflow is relevant at the
sizes involved); Rust `String`s that are only inspected as text are Lean
`String`s, while captured process output that is byte-sliced is modelled as a
list of byte values (`List Nat`), since Rust byte-index slicing of UTF-8 data
is exactly what is at issue there; fallible operations return
`Option`/`Except`, with `none` at the outermost level standing for a panic;
the OS (child-process scheduling, spawn failures) enters as explicit oracle
parameters.
-/

namespace Lai

/-- A JSON value, standing for `serde_json::Value`. Numbers are modelled as
integers; no claim inspects fractional numbers. -/
inductive Json where
  | null
  | bool (b : Bool)
  | num (n : Int)
  | str (s : String)
  | arr (elems : List Json)
  | obj (fields : List (String × Json))

/-- `serde_json::Value::get(key)` on an object: first binding for the key,
`None` on non-objects. -/
def Json.get (j : Json) (key : String) : Option Json :=
  match j with
  | .obj fields => fields.lookup key
  | _ => none

/-- `serde_json::Value::as_str()`. -/
def Json.asStr : Json → Option String
  | .str s => some s
  | _ => none

/-! ### Rust string primitives

Structural implementations of the `str` methods the sources use. Rust's
versions are Unicode-aware; on the ASCII data every claim exercises they
agree with the per-`Char` versions used here. -/

/-- Rust `str::trim_end`: drop trailing whitespace. -/
def trimEndRust (s : String) : String :=
  String.mk (s.data.reverse.dropWhile Char.isWhitespace).reverse

/-- Rust `str::trim`: drop leading and trailing whitespace. -/
def trimRust (s : String) : String :=
  String.mk
    ((s.data.dropWhile Char.isWhitespace).reverse.dropWhile
      Char.isWhitespace).reverse

/-- Rust `str::to_lowercase`. -/
def toLowerRust (s : String) : String :=
  String.mk (s.data.map Char.toLower)

/-- Whether `pat` occurs at the head of `l`. -/
def charsStartWith : List Char → List Char → Bool
  | [], _ => true
  | _ :: _, [] => false
  | p :: ps, c :: cs => p == c && charsStartWith ps cs

/-- Whether `pat` occurs as a contiguous run anywhere in `l`. -/
def charsContain : List Char → List Char → Bool
  | [], pat => pat.isEmpty
  | c :: t, pat => charsStartWith pat (c :: t) || charsContain t pat

/-- Rust `str::contains(pat)`: substring occurrence. -/
def containsSub (s pat : String) : Bool :=
  charsContain s.data pat.data

/-- `IpcMessage` from `ipc.rs`: the deserialized request envelope. The wire
field `type` is named `kind`, as in the source. -/
structure IpcMessage where
  kind : String
  message : Option String
  payload : Option Json

/-- `IpcResponse` from `ipc.rs`. `data = none` is serialized as an absent
field. -/
structure IpcResponse where
  status : String
  data : Option Json

/-- A row of the `conversations` table, restricted to the fields the IPC
paths read or write (`database/conversations.rs`). -/
structure Conversation where
  id : String
  title : String
  createdAt : Nat
  updatedAt : Nat
  model : String
  provider : String
  systemPrompt : Option String

/-- A row of the `messages` table (`database/messages.rs`). -/
structure Message where
  id : String
  conversationId : String
  role : String
  content : String
  timestamp : Nat
  tokensUsed : Option Int

/-- The conversation store visible to the dispatcher. `nextId` is a fresh-id
supply standing in for `uuid::Uuid::new_v4()`: the ids it hands out are
opaque to every operation modelled here. -/
structure DbState where
  conversations : List Conversation
  messages : List Message
  nextId : Nat

/-- Draw a fresh id from the supply. -/
def freshId (st : DbState) : String × DbState :=
  (toString st.nextId, { st with nextId := st.nextId + 1 })

/-- `Conversation::create` (`database/conversations.rs`): insert a new row
with `created_at = updated_at = now` and return it. -/
def Conversation.create (st : DbState) (now : Nat) (title model provider : String)
    (systemPrompt : Option String) : Conversation × DbState :=
  match freshId st with
  | (id, st) =>
    let conv : Conversation :=
      { id := id, title := title, createdAt := now, updatedAt := now,
        model := model, provider := provider, systemPrompt := systemPrompt }
    (conv, { st with conversations := st.conversations ++ [conv] })

/-- `Conversation::touch`: set `updated_at = now` on the row with the given
id. -/
def Conversation.touch (st : DbState) (now : Nat) (id : String) : DbState :=
  { st with
    conversations := st.conversations.map fun c =>
      if c.id = id then { c with updatedAt := now } else c }

/-- `Message::create` (`database/messages.rs`): insert the message row, then
touch its conversation. -/
def Message.create (st : DbState) (now : Nat) (conversationId role content : String)
    (tokensUsed : Option Int) : Message × DbState :=
  match freshId st with
  | (id, st) =>
    let msg : Message :=
      { id := id, conversationId := conversationId, role := role,
        content := content, timestamp := now, tokensUsed := tokensUsed }
    let st := { st with messages := st.messages ++ [msg] }
    (msg, Conversation.touch st now conversationId)

/-- `create_message` (`commands/messages.rs`): create the row; when the
`DEV_ECHO_RESPONSES` flag is set and the created message has role `user`,
additionally insert an echoing assistant reply. `devEcho` is that startup
flag. -/
def create_message (st : DbState) (now : Nat) (devEcho : Bool)
    (conversationId role content : String) (tokensUsed : Option Int) :
    Message × DbState :=
  match Message.create st now conversationId role content tokensUsed with
  | (created, st) =>
    if devEcho && created.role == "user" then
      match Message.create st now created.conversationId "assistant"
          ("Echo: " ++ created.content) none with
      | (_, st) => (created, st)
    else (created, st)

/-- `ORDER BY updated_at DESC LIMIT 1` over the conversations table
(`Conversation::get_all(conn, 1)`). Ties are resolved in favour of the
earlier row, modelling an arbitrary but fixed SQL order. -/
def mostRecentConversation (st : DbState) : Option Conversation :=
  st.conversations.foldl
    (fun acc c =>
      match acc with
      | none => some c
      | some b => if c.updatedAt > b.updatedAt then some c else some b)
    none

/-- `get_last_assistant_message` (`commands/messages.rs`): the assistant
message with the greatest timestamp in the most recently updated
conversation. -/
def get_last_assistant_message (st : DbState) : Option Message :=
  match mostRecentConversation st with
  | none => none
  | some conv =>
    (st.messages.filter fun m =>
        m.conversationId == conv.id && m.role == "assistant").foldl
      (fun acc m =>
        match acc with
        | none => some m
        | some b => if m.timestamp > b.timestamp then some m else some b)
      none

/-- serde serialization of a `Message`, as returned inside `data` by the
`last` and `create` handlers. -/
def Message.toJson (m : Message) : Json :=
  Json.obj
    [("id", Json.str m.id),
     ("conversation_id", Json.str m.conversationId),
     ("role", Json.str m.role),
     ("content", Json.str m.content),
     ("timestamp", Json.num m.timestamp),
     ("tokens_used",
       match m.tokensUsed with
       | some t => Json.num t
       | none => Json.null)]

/-- Shorthand for the `{status:"error", data:{error: e}}` response shape. -/
def errorResponse (e : String) : IpcResponse :=
  { status := "error", data := some (Json.obj [("error", Json.str e)]) }

/-- Shorthand for the `{status:"ok"}` response with no data. -/
def okResponse : IpcResponse :=
  { status := "ok", data := none }

/-- `handle_last_message` (`ipc.rs`). The embedding models a healthy
database, so the `Err` branch (poisoned lock / SQL failure) does not arise. -/
def handle_last_message (st : DbState) : IpcResponse :=
  match get_last_assistant_message st with
  | some message => { status := "ok", data := some (Message.toJson message) }
  | none => errorResponse "No messages found"

/-- `handle_create_message` (`ipc.rs`): reject a missing payload; default a
missing or non-string `content` to `"Test message"`; create a fresh
conversation when no string `conversation_id` is supplied; insert an
assistant-role message and return it. -/
def handle_create_message (devEcho : Bool) (now : Nat) (st : DbState)
    (msg : IpcMessage) : IpcResponse × DbState :=
  match msg.payload with
  | none => (errorResponse "No payload provided for create command", st)
  | some payload =>
    let content := ((payload.get "content").bind Json.asStr).getD "Test message"
    let conversationId := (payload.get "conversation_id").bind Json.asStr
    let step : String × DbState :=
      match conversationId with
      | some cid => (cid, st)
      | none =>
        match Conversation.create st now "Dev Test Conversation" "dev-model"
            "dev-provider" none with
        | (conv, st) => (conv.id, st)
    match step with
    | (convId, st) =>
      match create_message st now devEcho convId "assistant" content none with
      | (message, st) =>
        ({ status := "ok", data := some (Message.toJson message) }, st)

/-- `handle_message` (`ipc.rs`): route one envelope by `kind`. The returned
response is the single response written back for the envelope; the returned
state is the conversation store afterwards. `notify` and `ask` only emit UI
events, which do not touch the store. -/
def handle_message (devMode devEcho : Bool) (now : Nat) (st : DbState)
    (msg : IpcMessage) : IpcResponse × DbState :=
  match msg.kind with
  | "notify" => (okResponse, st)
  | "ask" => (okResponse, st)
  | "last" => (handle_last_message st, st)
  | "create" =>
    if devMode then handle_create_message devEcho now st msg
    else (errorResponse "create command only available in DEV_MODE", st)
  | _ => (okResponse, st)

/-- The dev-mode check at the top of `start_ipc_server` (`ipc.rs`): the
`DEV_MODE` variable (`none` = unset), trimmed and lower-cased, must be one of
`1`, `true`, `yes`. -/
def dev_mode_from_env (envVal : Option String) : Bool :=
  match envVal with
  | some val =>
    let v := toLowerRust (trimRust val)
    !v.isEmpty && (v == "1" || v == "true" || v == "yes")
  | none => false

/-- `MAX_MESSAGE_SIZE` (`ipc.rs`). -/
def MAX_MESSAGE_SIZE : Nat := 1024 * 1024

/-- One iteration of the `handle_client` read loop (`ipc.rs`), applied to one
line as delivered by `read_line` (trailing newline included, so the byte
length matches Rust's `line.len()`). Returns the responses written for that
line (none for a line that trims to empty, one otherwise) and the
conversation store afterwards. `parse` stands for
`serde_json::from_str::<IpcMessage>`: `none` is a deserialization failure. -/
def lineResponses (parse : String → Option IpcMessage) (devMode devEcho : Bool)
    (now : Nat) (st : DbState) (line : String) : List IpcResponse × DbState :=
  if line.utf8ByteSize > MAX_MESSAGE_SIZE then
    ([errorResponse "Message too large"], st)
  else
    let trimmed := trimEndRust line
    if trimmed.isEmpty then ([], st)
    else
      match parse trimmed with
      | some msg =>
        match handle_message devMode devEcho now st msg with
        | (resp, st) => ([resp], st)
      | none => ([errorResponse "Invalid JSON"], st)

/-- The `handle_client` read loop (`ipc.rs`) over the whole connection: the
input list is the sequence of lines `read_line` delivers before EOF (or a
read error) ends the loop; the output is the sequence of responses written on
the connection, in order. -/
def handle_client (parse : String → Option IpcMessage) (devMode devEcho : Bool)
    (now : Nat) : DbState → List String → List IpcResponse × DbState
  | st, [] => ([], st)
  | st, line :: rest =>
    match lineResponses parse devMode devEcho now st line with
    | (rs, st) =>
      match handle_client parse devMode devEcho now st rest with
      | (rs', st) => (rs ++ rs', st)

/-! ### Process runner and audit log (`commands/run.rs`, `cli/src/main.rs`) -/

/-- Result of one `child.try_wait()` call: `exited code` is
`Ok(Some(status))` with `status.code() = code` (`none` when the child was
terminated by a signal), `running` is `Ok(None)`, `pollFailed` is `Err`. The
child's behaviour over time is an oracle `Nat → PollStatus` indexed by the
poll number. -/
inductive PollStatus where
  | exited (code : Option Int)
  | running
  | pollFailed (e : String)

/-- The polling loop of `run_code` (`commands/run.rs`): `try_wait`; on
`Ok(Some)` finish with the status code; on `Ok(None)` kill and break once the
elapsed time exceeds the timeout, else sleep 50 ms and repeat. `fuel` is the
number of polls that still find `start.elapsed() <= timeout`. Returns
`(exit_code, timed_out)` as used to build the `RunResult`. -/
def pollLoopRun (child : Nat → PollStatus) :
    Nat → Nat → Except String (Option Int × Bool)
  | 0, poll =>
    match child poll with
    | .exited code => .ok (code, false)
    | .pollFailed e => .error ("failed to poll child: " ++ e)
    | .running => .ok (none, true)
  | fuel + 1, poll =>
    match child poll with
    | .exited code => .ok (code, false)
    | .pollFailed e => .error ("failed to poll child: " ++ e)
    | .running => pollLoopRun child fuel (poll + 1)

/-- The polling loop of `execute_command` (`cli/src/main.rs`); identical
dispatch, different error text, and on timeout the child is killed and
reaped before breaking. -/
def pollLoopCli (child : Nat → PollStatus) :
    Nat → Nat → Except String (Option Int × Bool)
  | 0, poll =>
    match child poll with
    | .exited code => .ok (code, false)
    | .pollFailed e => .error ("Error waiting for process: " ++ e)
    | .running => .ok (none, true)
  | fuel + 1, poll =>
    match child poll with
    | .exited code => .ok (code, false)
    | .pollFailed e => .error ("Error waiting for process: " ++ e)
    | .running => pollLoopCli child fuel (poll + 1)

/-- Rust `str::is_char_boundary` on a UTF-8 byte sequence: position 0, the
end, or any byte that is not a continuation byte `0x80..=0xBF`. -/
def isCharBoundary (s : List Nat) (n : Nat) : Bool :=
  n == 0 || n == s.length ||
    (match s.get? n with
     | some b => decide (b < 0x80) || decide (0xC0 ≤ b)
     | none => false)

/-- The UTF-8 bytes of a Lean string, for assembling audit-log content. -/
def utf8Bytes (s : String) : List Nat :=
  s.toUTF8.toList.map fun b => b.toNat

/-- The `take` closure in `append_audit` (`commands/run.rs`):
`if s.len() > n { format!("{}...", &s[..n]) } else { s.to_string() }`.
Rust's `&s[..n]` panics when `n` is not a char boundary; that panic is the
`none` case. -/
def truncateRust (s : List Nat) (n : Nat) : Option (List Nat) :=
  if s.length > n then
    if isCharBoundary s n then some (s.take n ++ utf8Bytes "...") else none
  else some s

/-- Rust `Debug` formatting of an `Option<i32>`. -/
def debugOptInt : Option Int → String
  | some c => "Some(" ++ toString c ++ ")"
  | none => "None"

/-- Rust `Debug` formatting of an `Option<&str>` (escaping of special
characters inside the string elided; no claim inspects it). -/
def debugOptStr : Option String → String
  | some s => "Some(\"" ++ s ++ "\")"
  | none => "None"

/-- The metadata line of an audit entry (`append_audit`):
`"{ts} | lang={language} | exit={exit_code:?} | timed_out={timed_out} | cwd={cwd:?}\n"`. -/
def auditMetaLine (ts : Nat) (language : String) (cwd : Option String)
    (exitCode : Option Int) (timedOut : Bool) : String :=
  let ec := debugOptInt exitCode
  let cw := debugOptStr cwd
  let ts' := toString ts
  let t := toString timedOut
  ts' ++ " | lang=" ++ language ++ " | exit=" ++ ec ++ " | timed_out=" ++ t
    ++ " | cwd=" ++ cw ++ "\n"

/-- The full audit entry once both truncations have succeeded: metadata line,
`STDOUT:` line, `STDERR:` line, `---` separator. -/
def assembleEntry (ts : Nat) (language : String) (cwd : Option String)
    (exitCode : Option Int) (timedOut : Bool) (o e : List Nat) : List Nat :=
  utf8Bytes (auditMetaLine ts language cwd exitCode timedOut)
    ++ utf8Bytes "STDOUT: " ++ o ++ [10]
    ++ utf8Bytes "STDERR: " ++ e ++ [10]
    ++ utf8Bytes "---" ++ [10]

/-- Entry construction in `append_audit`, in source order: truncate stdout,
truncate stderr, assemble. `none` is the byte-slicing panic escaping from
either `take` call. -/
def auditEntry (ts : Nat) (language : String) (cwd : Option String)
    (exitCode : Option Int) (timedOut : Bool) (stdout stderr : List Nat) :
    Option (List Nat) := do
  let o ← truncateRust stdout 1000
  let e ← truncateRust stderr 1000
  some (assembleEntry ts language cwd exitCode timedOut o e)

/-- The two audit-log files: `executions.log` (`cur`) and `executions.log.1`
(`bak`); `none` means the file does not exist. Contents are byte lists, so
`(·.length)` is the size `fs::metadata` reports. -/
structure AuditFs where
  cur : Option (List Nat)
  bak : Option (List Nat)

/-- `MAX_LOG_BYTES` (`append_audit`). -/
def MAX_LOG_BYTES : Nat := 1048576

/-- The rotation step of `append_audit`: when `executions.log` exists and its
size exceeds the cap, delete `executions.log.1` and rename the current file
onto it. Rename failure (logged and swallowed in the source) does not arise
in this error-free filesystem model. -/
def rotateIfLarge (fs : AuditFs) : AuditFs :=
  match fs.cur with
  | some content =>
    if content.length > MAX_LOG_BYTES then { cur := none, bak := some content }
    else fs
  | none => fs

/-- The `OpenOptions::new().create(true).append(true)` write at the end of
`append_audit`. -/
def appendToLog (fs : AuditFs) (entry : List Nat) : AuditFs :=
  { fs with cur := some (fs.cur.getD [] ++ entry) }

/-- `append_audit` (`commands/run.rs`): build the entry (this is where the
truncation panic, modelled as `none`, can escape), then rotate if the current
file is too large, then append. I/O errors on the open/write are logged and
swallowed in the source and do not arise in this error-free filesystem
model. -/
def append_audit (fs : AuditFs) (ts : Nat) (language : String)
    (cwd : Option String) (exitCode : Option Int) (timedOut : Bool)
    (stdout stderr : List Nat) : Option AuditFs := do
  let entry ← auditEntry ts language cwd exitCode timedOut stdout stderr
  some (appendToLog (rotateIfLarge fs) entry)

/-- `RunResult` (`commands/run.rs`), with the captured output kept as the
byte sequences the OS delivered. -/
structure RunResult where
  stdout : List Nat
  stderr : List Nat
  exit_code : Option Int
  timed_out : Bool

/-- The language whitelist of `run_code`. -/
def supportedLanguages : List String :=
  ["bash", "sh", "zsh", "python", "node", "javascript"]

/-- `run_code` (`commands/run.rs`). Oracle parameters: `spawnErr` is the
outcome of `Command::spawn` (temp-file failures are analogous and folded into
it), `child` is the `try_wait` behaviour per poll, `stdoutCap`/`stderrCap`
the bytes collected from the pipes, `fuel` the number of polls before the
timeout expires, `ts` the clock reading for the audit entry. The outer
`Option` is panic (`none` = the call aborts); inside, `Except` is the
`Result<RunResult, String>` of the source, paired with the audit-log files
after the call. -/
def run_code (language : String) (cwd : Option String)
    (spawnErr : Option String) (child : Nat → PollStatus)
    (stdoutCap stderrCap : List Nat) (ts fuel : Nat) (fs : AuditFs) :
    Option (Except String (RunResult × AuditFs)) :=
  if !(supportedLanguages.contains (toLowerRust language)) then
    some (.error ("Unsupported language: " ++ language))
  else
    match spawnErr with
    | some e => some (.error ("failed to spawn: " ++ e))
    | none =>
      match pollLoopRun child fuel 0 with
      | .error e => some (.error e)
      | .ok (code, timedOut) =>
        match append_audit fs ts language cwd code timedOut stdoutCap stderrCap with
        | none => none
        | some fs' =>
          some (.ok
            ({ stdout := stdoutCap, stderr := stderrCap,
               exit_code := code, timed_out := timedOut }, fs'))

/-- `CaptureResult` (`cli/src/main.rs`). Captured output is kept as the
lossy-decoded strings the source produces. -/
structure CaptureResult where
  command : String
  working_dir : String
  exit_code : Option Int
  stdout : String
  stderr : String
  execution_time_ms : Nat
  timed_out : Bool
  error_summary : Option String

/-- Worker for `splitWhitespace`: `cur` is the reversed current word. -/
def splitWhitespaceAux : List Char → List Char → List (List Char)
  | cur, [] => if cur.isEmpty then [] else [cur.reverse]
  | cur, c :: cs =>
    if c.isWhitespace then
      if cur.isEmpty then splitWhitespaceAux [] cs
      else cur.reverse :: splitWhitespaceAux [] cs
    else splitWhitespaceAux (c :: cur) cs

/-- Rust `str::split_whitespace`: split on whitespace, dropping empty
pieces. -/
def splitWhitespace (s : String) : List String :=
  (splitWhitespaceAux [] s.data).map String.mk

/-- `analyze_error_output` (`cli/src/main.rs`): collect one line per detected
signal (non-zero exit code; non-empty stderr, then case-insensitive substring
checks on it), join with `"; "`, fall back to a generic sentence when nothing
was collected. -/
def analyze_error_output (stderr _stdout : String) (exit_code : Option Int) :
    String :=
  let analysis : List String :=
    match exit_code with
    | some code =>
      if code ≠ 0 then ["Process exited with code " ++ toString code] else []
    | none => []
  let analysis :=
    if stderr ≠ "" then
      let stderr_lower := toLowerRust stderr
      analysis ++ ["Error output detected"]
        ++ (if containsSub stderr_lower "permission denied" then
              ["Permission issue - try with sudo or check file permissions"]
            else [])
        ++ (if containsSub stderr_lower "command not found"
              || containsSub stderr_lower "no such file" then
              ["Command or file not found - check spelling and PATH"]
            else [])
        ++ (if containsSub stderr_lower "connection"
              && containsSub stderr_lower "refused" then
              ["Connection refused - check if service is running"]
            else [])
        ++ (if containsSub stderr_lower "out of memory"
              || containsSub stderr_lower "oom" then
              ["Memory issue - consider freeing up memory or using less memory-intensive options"]
            else [])
    else analysis
  if analysis.isEmpty then "Command completed but may have issues"
  else String.intercalate "; " analysis

/-- `execute_command` (`cli/src/main.rs`). Oracle parameters: `currentDir` is
`env::current_dir()`, `spawnErr` the outcome of `Command::spawn`, `child` the
`try_wait` behaviour per poll, `fuel` the number of polls before
`start.elapsed() >= timeout`, `outputErr` the outcome of
`wait_with_output()`, `stdoutCap`/`stderrCap` the lossy-decoded captured
output, `elapsedMs` the measured wall-clock time. -/
def execute_command (command : String) (workingDir : Option String)
    (currentDir : String) (spawnErr : Option String)
    (child : Nat → PollStatus) (fuel : Nat) (outputErr : Option String)
    (stdoutCap stderrCap : String) (elapsedMs : Nat) :
    Except String CaptureResult :=
  let wd := workingDir.getD currentDir
  let parts := splitWhitespace command
  if parts.isEmpty then .error "Empty command"
  else
    match spawnErr with
    | some e => .error ("Failed to spawn command: " ++ e)
    | none =>
      match pollLoopCli child fuel 0 with
      | .error e => .error e
      | .ok (exitCode, timedOut) =>
        match outputErr with
        | some e => .error ("Failed to read output: " ++ e)
        | none =>
          let errorSummary :=
            if exitCode.getD (-1) ≠ 0 || stderrCap ≠ "" then
              some (analyze_error_output stderrCap stdoutCap exitCode)
            else none
          .ok
            { command := command, working_dir := wd, exit_code := exitCode,
              stdout := stdoutCap, stderr := stderrCap,
              execution_time_ms := elapsedMs, timed_out := timedOut,
              error_summary := errorSummary }

/-! ### Theorems -/

/-- Claim C1: for every envelope of kind `create` received when the process
was started without the dev-mode environment flag set to `1`/`true`/`yes`
(case-insensitive), the dispatcher answers exactly
`{status:"error", data:{error:"create command only available in DEV_MODE"}}`,
regardless of the envelope's `message` or `payload`, and the conversation
store is unchanged (no conversation and no message is persisted). -/
theorem create_gated_when_dev_mode_off (envVal : Option String)
    (devEcho : Bool) (now : Nat) (st : DbState) (msg : IpcMessage)
    (hkind : msg.kind = "create") (hdev : dev_mode_from_env envVal = false) :
    handle_message (dev_mode_from_env envVal) devEcho now st msg =
      (errorResponse "create command only available in DEV_MODE", st) := by
  rw [hdev]
  unfold handle_message
  rw [hkind]
  rfl

/-- Witness for C1 at `DEV_MODE=0` and a create envelope carrying a
payload. -/
theorem create_gated_when_dev_mode_off_witness :
    handle_message (dev_mode_from_env (some "0")) false 7 ⟨[], [], 0⟩
        ⟨"create", some "hi", some (Json.str "x")⟩ =
      (errorResponse "create command only available in DEV_MODE",
        (⟨[], [], 0⟩ : DbState)) :=
  create_gated_when_dev_mode_off (some "0") false 7 ⟨[], [], 0⟩
    ⟨"create", some "hi", some (Json.str "x")⟩ rfl (by decide)

/-- Claim C8: an envelope whose kind is none of `notify`, `ask`, `last`,
`create` gets the `{status:"ok"}` response with no data, and the conversation
store is unchanged. -/
theorem unknown_kind_inert (devMode devEcho : Bool) (now : Nat)
    (st : DbState) (msg : IpcMessage) (h1 : msg.kind ≠ "notify")
    (h2 : msg.kind ≠ "ask") (h3 : msg.kind ≠ "last")
    (h4 : msg.kind ≠ "create") :
    handle_message devMode devEcho now st msg = (okResponse, st) := by
  unfold handle_message
  split <;> simp_all

/-- Witness for C8 at kind `bogus`. -/
theorem unknown_kind_inert_witness :
    handle_message true true 7 ⟨[], [], 0⟩ ⟨"bogus", none, none⟩ =
      (okResponse, (⟨[], [], 0⟩ : DbState)) :=
  unknown_kind_inert true true 7 ⟨[], [], 0⟩ ⟨"bogus", none, none⟩
    (by decide) (by decide) (by decide) (by decide)

/-- Claim C9: with the dev-mode gate enabled, a `create` envelope with no
payload yields
`{status:"error", data:{error:"No payload provided for create command"}}` and
the conversation store is unchanged. -/
theorem create_without_payload_errors (devEcho : Bool) (now : Nat)
    (st : DbState) (msg : IpcMessage) (hk : msg.kind = "create")
    (hp : msg.payload = none) :
    handle_message true devEcho now st msg =
      (errorResponse "No payload provided for create command", st) := by
  unfold handle_message
  rw [hk]
  simp only [if_pos]
  unfold handle_create_message
  rw [hp]

/-- Witness for C9. -/
theorem create_without_payload_errors_witness :
    handle_message true false 7 ⟨[], [], 0⟩ ⟨"create", some "m", none⟩ =
      (errorResponse "No payload provided for create command",
        (⟨[], [], 0⟩ : DbState)) :=
  create_without_payload_errors false 7 ⟨[], [], 0⟩
    ⟨"create", some "m", none⟩ rfl rfl

/-- Claim C10: with the dev-mode gate enabled, a `create` envelope whose
payload is present but has no string `content` field succeeds: an
assistant-role message with the default content `"Test message"` is persisted
(appended to the message store) and returned with status `ok`. -/
theorem create_defaults_missing_content (devEcho : Bool) (now : Nat)
    (st : DbState) (msg : IpcMessage) (payload : Json)
    (hk : msg.kind = "create") (hp : msg.payload = some payload)
    (hc : (payload.get "content").bind Json.asStr = none) :
    ∃ m st₂,
      handle_message true devEcho now st msg =
        ({ status := "ok", data := some (Message.toJson m) }, st₂) ∧
      m.role = "assistant" ∧ m.content = "Test message" ∧
      st₂.messages = st.messages ++ [m] := by
  unfold handle_message
  rw [hk]
  simp only [if_pos]
  unfold handle_create_message
  rw [hp]
  simp only [hc, Option.getD_none]
  cases devEcho with
  | false =>
    cases hcid : (payload.get "conversation_id").bind Json.asStr with
    | some cid => exact ⟨_, _, rfl, rfl, rfl, rfl⟩
    | none => exact ⟨_, _, rfl, rfl, rfl, rfl⟩
  | true =>
    cases hcid : (payload.get "conversation_id").bind Json.asStr with
    | some cid => exact ⟨_, _, rfl, rfl, rfl, rfl⟩
    | none => exact ⟨_, _, rfl, rfl, rfl, rfl⟩

/-- Witness for C10: payload whose `content` field is a number. -/
theorem create_defaults_missing_content_witness :
    ∃ m st₂,
      handle_message true false 7 ⟨[], [], 0⟩
          ⟨"create", none, some (Json.obj [("content", Json.num 5)])⟩ =
        ({ status := "ok", data := some (Message.toJson m) }, st₂) ∧
      m.role = "assistant" ∧ m.content = "Test message" ∧
      st₂.messages = ([] : List Message) ++ [m] :=
  create_defaults_missing_content false 7 ⟨[], [], 0⟩
    ⟨"create", none, some (Json.obj [("content", Json.num 5)])⟩
    (Json.obj [("content", Json.num 5)]) rfl rfl rfl

/-- The error response the framing layer writes for a rejected line:
`Message too large` for an oversized line, `Invalid JSON` for an unparseable
one. -/
def framingError (line : String) : IpcResponse :=
  if line.utf8ByteSize > MAX_MESSAGE_SIZE then errorResponse "Message too large"
  else errorResponse "Invalid JSON"

/-- A parse oracle that rejects every line, as `serde_json` does on the
non-JSON inputs of the counterexample below. -/
def parseNone : String → Option IpcMessage := fun _ => none

/-- A rejected line produces exactly the matching framing-error response and
leaves the conversation store untouched. -/
theorem lineResponses_framing_error (parse : String → Option IpcMessage)
    (devMode devEcho : Bool) (now : Nat) (st : DbState) (line : String)
    (h : MAX_MESSAGE_SIZE < line.utf8ByteSize ∨
         (line.utf8ByteSize ≤ MAX_MESSAGE_SIZE ∧
           (trimEndRust line).isEmpty = false ∧
           parse (trimEndRust line) = none)) :
    lineResponses parse devMode devEcho now st line = ([framingError line], st) := by
  rcases h with h | ⟨h1, h2, h3⟩
  · unfold lineResponses framingError
    rw [if_pos h, if_pos h]
  · unfold lineResponses framingError
    rw [if_neg (not_lt.mpr h1), if_neg (not_lt.mpr h1)]
    simp only [h2, h3]
    rfl

/-- Claim C3 counterexample: a connection that delivers the single line
`"\n"` — which is not valid JSON for an envelope and is within the size cap —
receives no response at all: the blank line is skipped silently, where the
claim requires exactly one `Invalid JSON` error response. -/
theorem framing_blank_line_no_response :
    (handle_client parseNone false false 0 ⟨[], [], 0⟩ ["\n"]).1 = [] := rfl

/-- Claim C3 (amended): for every line longer than the 1 MiB cap the server
writes exactly one `Message too large` error response, and for every line
within the cap whose content after trimming trailing whitespace is non-empty
and not valid JSON for an envelope exactly one `Invalid JSON` response;
lines that trim to empty are skipped with no response; in all cases the
connection is not closed and subsequent lines are processed from an unchanged
conversation store. -/
theorem framing_errors_continue (parse : String → Option IpcMessage)
    (devMode devEcho : Bool) (now : Nat) (st : DbState) (line : String)
    (rest : List String)
    (h : MAX_MESSAGE_SIZE < line.utf8ByteSize ∨
         (line.utf8ByteSize ≤ MAX_MESSAGE_SIZE ∧
           (trimEndRust line).isEmpty = false ∧
           parse (trimEndRust line) = none)) :
    handle_client parse devMode devEcho now st (line :: rest) =
      (framingError line ::
        (handle_client parse devMode devEcho now st rest).1,
       (handle_client parse devMode devEcho now st rest).2) := by
  have hstep := lineResponses_framing_error parse devMode devEcho now st line h
  simp only [handle_client, hstep]
  rfl

/-- Witness for the amended C3 at a short non-JSON line followed by another
line. -/
theorem framing_errors_continue_witness :
    handle_client parseNone false false 0 ⟨[], [], 0⟩ ["notjson\n", "x"] =
      (framingError "notjson\n" ::
        (handle_client parseNone false false 0 ⟨[], [], 0⟩ ["x"]).1,
       (handle_client parseNone false false 0 ⟨[], [], 0⟩ ["x"]).2) :=
  framing_errors_continue parseNone false false 0 ⟨[], [], 0⟩ "notjson\n" ["x"]
    (Or.inr ⟨by decide, by decide, rfl⟩)

/-- Inverting a successful `run_code` polling loop: on a timeout the exit
code is `none`, and otherwise the code is exactly what some `try_wait` call
reported. -/
theorem pollLoopRun_ok (child : Nat → PollStatus) (fuel : Nat) :
    ∀ (poll : Nat) (code : Option Int) (timedOut : Bool),
      pollLoopRun child fuel poll = .ok (code, timedOut) →
      (timedOut = true → code = none) ∧
      (timedOut = false → ∃ k, child k = .exited code) := by
  induction fuel with
  | zero =>
    intro poll code t h
    unfold pollLoopRun at h
    cases hc : child poll with
    | exited c =>
      rw [hc] at h
      simp only [Except.ok.injEq, Prod.mk.injEq] at h
      obtain ⟨hcode, ht⟩ := h
      subst hcode; subst ht
      exact ⟨fun hh => (nomatch hh), fun _ => ⟨poll, hc⟩⟩
    | running =>
      rw [hc] at h
      simp only [Except.ok.injEq, Prod.mk.injEq] at h
      obtain ⟨hcode, ht⟩ := h
      subst hcode; subst ht
      exact ⟨fun _ => rfl, fun hh => (nomatch hh)⟩
    | pollFailed e => rw [hc] at h; cases h
  | succ f ih =>
    intro poll code t h
    unfold pollLoopRun at h
    cases hc : child poll with
    | exited c =>
      rw [hc] at h
      simp only [Except.ok.injEq, Prod.mk.injEq] at h
      obtain ⟨hcode, ht⟩ := h
      subst hcode; subst ht
      exact ⟨fun hh => (nomatch hh), fun _ => ⟨poll, hc⟩⟩
    | running => rw [hc] at h; exact ih (poll + 1) code t h
    | pollFailed e => rw [hc] at h; cases h

/-- The same inversion for the CLI polling loop. -/
theorem pollLoopCli_ok (child : Nat → PollStatus) (fuel : Nat) :
    ∀ (poll : Nat) (code : Option Int) (timedOut : Bool),
      pollLoopCli child fuel poll = .ok (code, timedOut) →
      (timedOut = true → code = none) ∧
      (timedOut = false → ∃ k, child k = .exited code) := by
  induction fuel with
  | zero =>
    intro poll code t h
    unfold pollLoopCli at h
    cases hc : child poll with
    | exited c =>
      rw [hc] at h
      simp only [Except.ok.injEq, Prod.mk.injEq] at h
      obtain ⟨hcode, ht⟩ := h
      subst hcode; subst ht
      exact ⟨fun hh => (nomatch hh), fun _ => ⟨poll, hc⟩⟩
    | running =>
      rw [hc] at h
      simp only [Except.ok.injEq, Prod.mk.injEq] at h
      obtain ⟨hcode, ht⟩ := h
      subst hcode; subst ht
      exact ⟨fun _ => rfl, fun hh => (nomatch hh)⟩
    | pollFailed e => rw [hc] at h; cases h
  | succ f ih =>
    intro poll code t h
    unfold pollLoopCli at h
    cases hc : child poll with
    | exited c =>
      rw [hc] at h
      simp only [Except.ok.injEq, Prod.mk.injEq] at h
      obtain ⟨hcode, ht⟩ := h
      subst hcode; subst ht
      exact ⟨fun hh => (nomatch hh), fun _ => ⟨poll, hc⟩⟩
    | running => rw [hc] at h; exact ih (poll + 1) code t h
    | pollFailed e => rw [hc] at h; cases h

/-- A successful `run_code` call reports exactly the polling loop's
outcome. -/
theorem run_code_ok_inv (language : String) (cwd : Option String)
    (spawnErr : Option String) (child : Nat → PollStatus)
    (out err : List Nat) (ts fuel : Nat) (fs : AuditFs) (r : RunResult)
    (fs' : AuditFs)
    (h : run_code language cwd spawnErr child out err ts fuel fs =
      some (.ok (r, fs'))) :
    pollLoopRun child fuel 0 = .ok (r.exit_code, r.timed_out) := by
  unfold run_code at h
  split at h
  · simp at h
  · split at h
    · simp at h
    · split at h
      · simp at h
      · next code timedOut heq =>
        split at h
        · cases h
        · simp only [Option.some.injEq, Except.ok.injEq, Prod.mk.injEq] at h
          obtain ⟨hr, -⟩ := h
          subst hr
          exact heq

/-- A successful `execute_command` call returns exactly the record the
source builds from the polling loop's outcome and the captured output. -/
theorem execute_command_ok_shape (command : String)
    (workingDir : Option String) (currentDir : String)
    (spawnErr : Option String) (child : Nat → PollStatus) (fuel : Nat)
    (outputErr : Option String) (outC errC : String) (elapsedMs : Nat)
    (cr : CaptureResult)
    (h : execute_command command workingDir currentDir spawnErr child fuel
      outputErr outC errC elapsedMs = .ok cr) :
    ∃ exitCode timedOut,
      pollLoopCli child fuel 0 = .ok (exitCode, timedOut) ∧
      cr = { command := command, working_dir := workingDir.getD currentDir,
             exit_code := exitCode, stdout := outC, stderr := errC,
             execution_time_ms := elapsedMs, timed_out := timedOut,
             error_summary :=
               if exitCode.getD (-1) ≠ 0 || errC ≠ "" then
                 some (analyze_error_output errC outC exitCode)
               else none } := by
  simp only [execute_command] at h
  by_cases hparts : (splitWhitespace command).isEmpty = true
  · rw [if_pos hparts] at h; cases h
  · rw [if_neg hparts] at h
    cases spawnErr with
    | some e => cases h
    | none =>
      cases hpoll : pollLoopCli child fuel 0 with
      | error e => rw [hpoll] at h; cases h
      | ok p =>
        obtain ⟨exitCode, timedOut⟩ := p
        rw [hpoll] at h
        cases outputErr with
        | some e => cases h
        | none =>
          simp only [Except.ok.injEq] at h
          exact ⟨exitCode, timedOut, rfl, h.symm⟩

/-- A child that the very first `try_wait` already sees exited, terminated
by a signal, so `status.code()` is `None`. -/
def sigKilledChild : Nat → PollStatus := fun _ => PollStatus.exited none

/-- Claim C2 counterexample: a successful `run_code` call whose child was
terminated by a signal before the first poll returns `exit_code = none`
together with `timed_out = false`, so `exit_code` being `None` does not imply
`timed_out`. -/
theorem exit_code_none_without_timeout :
    (run_code "sh" none none sigKilledChild [] [] 0 10 ⟨none, none⟩).map
        (fun res => res.map fun p => (p.1.exit_code, p.1.timed_out)) =
      some (.ok ((none : Option Int), false)) := rfl

/-- Claim C2 (amended): for every successful run — `run_code` in the app and
`execute_command` in the CLI — `timed_out = true` implies `exit_code = none`;
when `timed_out = false`, `exit_code` is exactly the status code the OS
reported for the exited child, which is `none` precisely when the child was
terminated by a signal. -/
theorem exit_code_none_iff_timed_out_amended (language : String)
    (cwd : Option String) (spawnErr : Option String)
    (child : Nat → PollStatus) (out err : List Nat) (ts fuel : Nat)
    (fs : AuditFs) (r : RunResult) (fs' : AuditFs) (command : String)
    (workingDir : Option String) (currentDir : String)
    (spawnErrC : Option String) (childC : Nat → PollStatus) (fuelC : Nat)
    (outputErr : Option String) (outC errC : String) (elapsedMs : Nat)
    (cr : CaptureResult)
    (h1 : run_code language cwd spawnErr child out err ts fuel fs =
      some (.ok (r, fs')))
    (h2 : execute_command command workingDir currentDir spawnErrC childC
      fuelC outputErr outC errC elapsedMs = .ok cr) :
    ((r.timed_out = true → r.exit_code = none) ∧
     (r.timed_out = false → ∃ k, child k = .exited r.exit_code)) ∧
    ((cr.timed_out = true → cr.exit_code = none) ∧
     (cr.timed_out = false → ∃ k, childC k = .exited cr.exit_code)) := by
  refine ⟨pollLoopRun_ok child fuel 0 r.exit_code r.timed_out
    (run_code_ok_inv language cwd spawnErr child out err ts fuel fs r fs' h1), ?_⟩
  obtain ⟨exitCode, timedOut, heq, hcr⟩ :=
    execute_command_ok_shape command workingDir currentDir spawnErrC childC
      fuelC outputErr outC errC elapsedMs cr h2
  subst hcr
  exact pollLoopCli_ok childC fuelC 0 exitCode timedOut heq

/-- A child whose first poll reports a normal exit with code 0. -/
def okChild : Nat → PollStatus := fun _ => PollStatus.exited (some 0)

/-- The run result of `okChild` with no captured output. -/
def rWit : RunResult := ⟨[], [], some 0, false⟩

/-- The audit-log state after the `okChild` run from empty files. -/
def fsWit : AuditFs :=
  appendToLog (rotateIfLarge ⟨none, none⟩)
    (assembleEntry 0 "sh" none (some 0) false [] [])

/-- The capture result of `okChild` under `execute_command "echo hi"`. -/
def crWit : CaptureResult := ⟨"echo hi", "/", some 0, "hi", "", 5, false, none⟩

/-- Witness for the amended C2: both runners with a child exiting normally
with code 0. -/
theorem exit_code_none_iff_timed_out_amended_witness :
    ((rWit.timed_out = true → rWit.exit_code = none) ∧
     (rWit.timed_out = false → ∃ k, okChild k = .exited rWit.exit_code)) ∧
    ((crWit.timed_out = true → crWit.exit_code = none) ∧
     (crWit.timed_out = false → ∃ k, okChild k = .exited crWit.exit_code)) :=
  exit_code_none_iff_timed_out_amended "sh" none none okChild [] [] 0 10
    ⟨none, none⟩ rWit fsWit "echo hi" none "/" none okChild 10 none
    "hi" "" 5 crWit rfl rfl

/-- Claim C4: when `executions.log` exceeds 1 MiB at the time of an append,
the old `.1` backup is discarded, the current content becomes the single
`.1` backup, and the fresh current file holds exactly the new record — for
any prior backup state, so a second rotation overwrites rather than appends
to the backup. -/
theorem audit_rotation (fs : AuditFs) (ts : Nat) (language : String)
    (cwd : Option String) (exitCode : Option Int) (timedOut : Bool)
    (out err o e c : List Nat)
    (hcur : fs.cur = some c) (hsize : c.length > MAX_LOG_BYTES)
    (ho : truncateRust out 1000 = some o)
    (he : truncateRust err 1000 = some e) :
    append_audit fs ts language cwd exitCode timedOut out err =
      some { cur := some (assembleEntry ts language cwd exitCode timedOut o e),
             bak := some c } := by
  unfold append_audit auditEntry rotateIfLarge appendToLog
  rw [ho, he, hcur]
  simp [hsize]

/-- An over-threshold current log file: 1 MiB + 1 bytes of `a`. -/
def bigLog : List Nat := List.replicate 1048577 97

/-- Witness for C4: rotation from a full current file and a stale backup. -/
theorem audit_rotation_witness :
    append_audit ⟨some bigLog, some [48]⟩ 3 "sh" none (some 0) false [] [] =
      some { cur := some (assembleEntry 3 "sh" none (some 0) false [] []),
             bak := some bigLog } :=
  audit_rotation ⟨some bigLog, some [48]⟩ 3 "sh" none (some 0) false [] [] []
    [] bigLog rfl
    (by unfold bigLog; rw [List.length_replicate]; decide) rfl rfl

/-- The stdout bytes of a run printing 999 `a`s followed by `é`: after the
trailing newline the capture is 1002 bytes and byte 1000 is the continuation
byte `0xA9` of the two-byte `é`. -/
def badStdout : List Nat := List.replicate 999 97 ++ [195, 169, 10]

set_option maxRecDepth 8192 in
/-- Claim C5 (code bug): `run_code` can panic. With a child that exits
normally with code 0 but whose captured stdout is `badStdout`, the audit
truncation `&s[..1000]` hits a non-boundary byte index and the whole call
aborts (`none`), contradicting the contract that `run` never panics and that
audit-log truncation of arbitrary captured output cannot abort the call. -/
theorem run_code_truncation_panic :
    run_code "python" none none okChild badStdout [] 0 10 ⟨none, none⟩ =
      none := rfl

/-- Claim C6: the classifier on stderr `"bash: foo: command not found"`,
empty stdout and exit code 127 reports both the exit code and the not-found
advisory; on clean output (empty stderr, exit code 0) it returns only the
generic fallback sentence. -/
theorem classifier_not_found_and_clean :
    containsSub
        (analyze_error_output "bash: foo: command not found" "" (some 127))
        "Process exited with code 127" = true ∧
    containsSub
        (analyze_error_output "bash: foo: command not found" "" (some 127))
        "Command or file not found - check spelling and PATH" = true ∧
    analyze_error_output "" "ok" (some 0) =
      "Command completed but may have issues" := by
  refine ⟨by decide, by decide, rfl⟩

/-- `exit_code.unwrap_or(-1) != 0` says exactly that the exit code is not
`Some(0)`. -/
theorem getD_neg_one_ne_zero_iff (ec : Option Int) :
    ec.getD (-1) ≠ 0 ↔ ec ≠ some 0 := by
  cases ec <;> simp

/-- Claim C7: every `CaptureResult` of a successful `execute_command` call
has `error_summary` present exactly when the exit code was non-zero (which
includes an absent code, treated as `-1` by the source) or the captured
stderr is non-empty. -/
theorem error_summary_iff_failure (command : String)
    (workingDir : Option String) (currentDir : String)
    (spawnErr : Option String) (child : Nat → PollStatus) (fuel : Nat)
    (outputErr : Option String) (outC errC : String) (elapsedMs : Nat)
    (cr : CaptureResult)
    (h : execute_command command workingDir currentDir spawnErr child fuel
      outputErr outC errC elapsedMs = .ok cr) :
    cr.error_summary.isSome = true ↔
      (cr.exit_code ≠ some 0 ∨ cr.stderr ≠ "") := by
  obtain ⟨exitCode, timedOut, -, hcr⟩ :=
    execute_command_ok_shape command workingDir currentDir spawnErr child
      fuel outputErr outC errC elapsedMs cr h
  subst hcr
  show (if exitCode.getD (-1) ≠ 0 || errC ≠ "" then
      some (analyze_error_output errC outC exitCode)
    else none).isSome = true ↔ (exitCode ≠ some 0 ∨ errC ≠ "")
  split
  next hcond =>
    simp only [Option.isSome_some, true_iff]
    simpa [getD_neg_one_ne_zero_iff] using hcond
  next hcond =>
    simp only [Option.isSome_none, Bool.false_eq_true, false_iff]
    intro hor
    exact hcond (by simpa [getD_neg_one_ne_zero_iff] using hor)

/-- Witness for C7: a run exiting with code 1 and empty stderr. -/
theorem error_summary_iff_failure_witness :
    (CaptureResult.error_summary
        ⟨"false", "/", some 1, "", "", 3, false,
          some (analyze_error_output "" "" (some 1))⟩).isSome = true ↔
      (CaptureResult.exit_code
          ⟨"false", "/", some 1, "", "", 3, false,
            some (analyze_error_output "" "" (some 1))⟩ ≠ some 0 ∨
        CaptureResult.stderr
          ⟨"false", "/", some 1, "", "", 3, false,
            some (analyze_error_output "" "" (some 1))⟩ ≠ "") :=
  error_summary_iff_failure "false" none "/" none
    (fun _ => PollStatus.exited (some 1)) 10 none "" "" 3
    ⟨"false", "/", some 1, "", "", 3, false,
      some (analyze_error_output "" "" (some 1))⟩ rfl

end Lai
